import Mathlib

/-!
Verification of the KV-cache-aware router repository (dynamo).

The definitions below are a shallow embedding of the Rust source:
  - src/lib/runtime/src/protocols.rs   (Endpoint parsing)
  - src/lib/runtime/src/component.rs   (etcd instance paths)
  - src/lib/llm/src/kv_router.rs       (KvRouter facade)
  - src/launch/dynamo-run/src/lib.rs   (launcher run function)
Parts of the repository outside this slice (token block hashing, the
indexer and the scheduler implementations, external I/O) are modelled
from the specification, as marked on each definition.
-/

namespace Dynamo

/-! ## protocols.rs -/

namespace Protocols

def DEFAULT_NAMESPACE : String := "NS"

def DEFAULT_COMPONENT : String := "C"

def DEFAULT_ENDPOINT : String := "E"

def ENDPOINT_SCHEME : String := "dyn://"

/-- Mirror of protocols.rs `struct Endpoint` (namespace / component / name).
The Rust field `namespace` is called `nspace` because `namespace` is a Lean
keyword. -/
structure EndpointId where
  nspace : String
  component : String
  name : String
deriving DecidableEq, Repr

/-- Mirror of `Endpoint::default()`. -/
def EndpointId.default : EndpointId :=
  { nspace := DEFAULT_NAMESPACE
    component := DEFAULT_COMPONENT
    name := DEFAULT_ENDPOINT }

/-- The character set of `trim_matches([' ', '/', '.'])` in `Endpoint::from`. -/
def isTrimChar (c : Char) : Bool := c = ' ' || c = '/' || c = '.'

/-- The separator set of `split(['.', '/'])` in `Endpoint::from`. -/
def isSepChar (c : Char) : Bool := c = '.' || c = '/'

/-- Rust `str::trim_matches`: strip leading and trailing characters
satisfying `p`. -/
def trimMatches (p : Char → Bool) (cs : List Char) : List Char :=
  ((cs.dropWhile p).reverse.dropWhile p).reverse

/-- Rust `str::split` on a character class: cut at every separator, keeping
empty pieces (they are filtered afterwards, as in the source). -/
def splitOnP (p : Char → Bool) : List Char → List (List Char)
  | [] => [[]]
  | c :: rest =>
    match splitOnP p rest with
    | [] => [[]]
    | h :: t => if p c then [] :: h :: t else (c :: h) :: t

/-- The `elements` vector computed inside `Endpoint::from`:
trim, split on '.' or '/', drop empty pieces. -/
def elementsOf (input : List Char) : List String :=
  ((splitOnP isSepChar (trimMatches isTrimChar input)).map
      (fun cs => String.mk cs)).filter (fun s => s ≠ "")

/-- Mirror of `impl From<&str> for Endpoint`, the match on `elements.len()`. -/
def endpoint_from (input : String) : EndpointId :=
  let elements := elementsOf input.data
  match elements with
  | [] => EndpointId.default
  | [c] => { EndpointId.default with component := c }
  | [n, c] => { EndpointId.default with nspace := n, component := c }
  | [n, c, e] => { nspace := n, component := c, name := e }
  | n :: c :: rest => { nspace := n, component := c, name := String.intercalate "_" rest }

/-- Rust `s.strip_prefix(ENDPOINT_SCHEME).unwrap_or(s)` from `from_str`. -/
def stripScheme (s : String) : String :=
  if s.data.take ENDPOINT_SCHEME.data.length = ENDPOINT_SCHEME.data then
    String.mk (s.data.drop ENDPOINT_SCHEME.data.length)
  else s

/-- Mirror of `impl FromStr for Endpoint` (never fails). -/
def endpoint_from_str (s : String) : Except String EndpointId :=
  Except.ok (endpoint_from (stripScheme s))

/-- Written from the words of claim C10 (not from the source): the parts fill
namespace, component and name in that order, missing parts defaulting. -/
def fillInOrderSpec (input : String) : EndpointId :=
  let elements := elementsOf input.data
  { nspace := elements.getD 0 DEFAULT_NAMESPACE
    component := elements.getD 1 DEFAULT_COMPONENT
    name :=
      if elements.length ≤ 3 then elements.getD 2 DEFAULT_ENDPOINT
      else String.intercalate "_" (elements.drop 2) }

end Protocols

/-! ## component.rs -/

namespace Runtime

/-- Mirror of component.rs `INSTANCE_ROOT_PATH`. -/
def INSTANCE_ROOT_PATH : String := "instances"

/-- Mirror of component.rs `struct Component`, restricted to the data its
path functions read: the namespace name and the component name. -/
structure Component where
  nspace : String
  name : String
deriving DecidableEq, Repr

/-- Mirror of `Component::etcd_root`. -/
def Component.etcd_root (c : Component) : String :=
  INSTANCE_ROOT_PATH ++ "/" ++ c.nspace ++ "/" ++ c.name

/-- Mirror of component.rs `struct Endpoint` (called `CEndpoint` here to keep
it apart from protocols.rs `Endpoint`). -/
structure CEndpoint where
  component : Component
  name : String
  is_static : Bool
deriving DecidableEq, Repr

/-- Mirror of `Endpoint::etcd_root`. -/
def CEndpoint.etcd_root (e : CEndpoint) : String :=
  e.component.etcd_root ++ "/" ++ e.name

/-- Lower-case hex digit, as produced by Rust `{:x}` formatting. -/
def hexDigitChar (n : Nat) : Char :=
  if n < 10 then Char.ofNat (48 + n) else Char.ofNat (87 + n)

/-- Minimal-length lower-case hex digits of a natural number. -/
def natToHex (n : Nat) : List Char :=
  if _h : n < 16 then [hexDigitChar n]
  else natToHex (n / 16) ++ [hexDigitChar (n % 16)]
decreasing_by exact Nat.div_lt_self (by omega) (by omega)

/-- Rust `format` of an `i64` with `{:x}`: the two's-complement 64-bit value
in lower-case hex. -/
def i64LowerHex (v : Int) : String :=
  String.mk (natToHex ((v % (2 : Int) ^ 64).toNat))

/-- Mirror of `Endpoint::etcd_path`. -/
def CEndpoint.etcd_path (e : CEndpoint) (lease_id : Int) : String :=
  let endpoint_root := e.etcd_root
  if e.is_static then endpoint_root
  else endpoint_root ++ ":" ++ i64LowerHex lease_id

end Runtime

/-! ## kv_router.rs -/

namespace KvR

/-- Modelled from the spec: the complete blocks of a token sequence — maximal
run of consecutive chunks of exactly `B` tokens; the trailing
`len mod B` tokens form the partial tail and are not chunked.
(The chunking lives in `TokenBlockSequence::split_tokens`, outside this
source slice; spec section 4.1.) -/
def completeBlocks (B : Nat) (tokens : List Nat) : List (List Nat) :=
  if _h : B = 0 ∨ tokens.length < B then []
  else tokens.take B :: completeBlocks B (tokens.drop B)
termination_by tokens.length
decreasing_by simp [List.length_drop]; omega

/-- Modelled from the spec: the salted hash chain over complete blocks,
`h_0 = H(seed, block_0)`, `h_i = H(h_im1, block_i)`, with the 64-bit mixer
`H` abstract (spec section 3, Local Block Hash). -/
def hashChain (H : Nat → List Nat → Nat) (seed : Nat) : List (List Nat) → List Nat
  | [] => []
  | b :: bs => H seed b :: hashChain H (H seed b) bs

/-- Modelled from the spec: `TokenBlockSequence::split_tokens` (not in this
source slice; spec section 4.1): the block hashes of the complete blocks and
the un-hashed partial tail of `len mod B` trailing tokens. -/
def splitTokens (H : Nat → List Nat → Nat) (tokens : List Nat)
    (block_size : Nat) (seed : Nat) : List Nat × List Nat :=
  (hashChain H seed (completeBlocks block_size tokens),
   tokens.drop (block_size * (tokens.length / block_size)))

/-- The router state: its configured block size, plus the indexer and the
scheduler. The indexer and scheduler implementations (kv_router/indexer.rs,
kv_router/scheduler.rs) are outside this source slice; modelled from the spec
as fallible functions: the indexer maps block hashes (or, for
`find_matches_for_request`, raw tokens) to per-worker overlap scores, the
scheduler maps overlap scores and `isl_tokens` to a worker id
(spec sections 4.3 and 4.5). -/
structure KvRouter where
  block_size : Nat
  indexer_find_matches : List Nat → Except String (List (Int × Nat))
  indexer_find_matches_for_request : List Nat → Except String (List (Int × Nat))
  scheduler_schedule : List (Int × Nat) → Nat → Except String Int

/-- Mirror of `KvRouter::schedule`: isl from full token count, indexer on the
raw tokens, then the scheduler; `lora_id` is accepted and unused (the Rust
parameter is `_lora_id`). -/
def KvRouter.schedule (r : KvRouter) (token_ids : List Nat) (_lora_id : Nat) :
    Except String Int := do
  let isl_tokens := token_ids.length
  let overlap_scores ← r.indexer_find_matches_for_request token_ids
  let worker_id ← r.scheduler_schedule overlap_scores isl_tokens
  return worker_id

/-- Mirror of `KvRouter::find_best_match`: split with seed 1337, hash only the
complete blocks, query the indexer with those hashes, call the scheduler with
the full token count. -/
def KvRouter.find_best_match (H : Nat → List Nat → Nat) (r : KvRouter)
    (tokens : List Nat) : Except String Int := do
  let isl_tokens := tokens.length
  let block_size := r.block_size
  let split := splitTokens H tokens block_size 1337
  let local_block_hashes := split.1
  let overlap_scores ← r.indexer_find_matches local_block_hashes
  let worker_id ← r.scheduler_schedule overlap_scores isl_tokens
  return worker_id

/-- The block-hash list `find_best_match` sends to the indexer. -/
def routerHashes (H : Nat → List Nat → Nat) (r : KvRouter)
    (tokens : List Nat) : List Nat :=
  (splitTokens H tokens r.block_size 1337).1

/-- Mirror of `RouterRequest` (kv_router/protocols.rs is outside the slice;
the field is read in `KvRouter::generate`). -/
structure RouterRequest where
  tokens : List Nat

/-- Mirror of `RouterResponse`. -/
structure RouterResponse where
  worker_id : Int
deriving DecidableEq, Repr

/-- Mirror of `KvRouter::generate`: one `find_best_match`, answered as a
stream holding the single response (modelled as the list of stream
elements). -/
def KvRouter.generate (H : Nat → List Nat → Nat) (r : KvRouter)
    (request : RouterRequest) : Except String (List RouterResponse) := do
  let worker_id ← r.find_best_match H request.tokens
  return [{ worker_id := worker_id }]

/-- Mirror of the `kv_events` pump spawned in `KvRouter::new`: each inbound
payload is deserialized (`decode` stands for `serde_json::from_slice`, which
is external); a payload that fails to decode is skipped and the loop
continues; a decoded event is forwarded to the indexer channel. The returned
list is the sequence of events forwarded, in order. -/
def pumpEvents {P E : Type} (decode : P → Option E) : List P → List E
  | [] => []
  | p :: rest =>
    match decode p with
    | some event => event :: pumpEvents decode rest
    | none => pumpEvents decode rest

end KvR

/-! ## launch/dynamo-run: opt.rs and lib.rs -/

namespace Launch

/-- Mirror of opt.rs `enum Input`. Paths carried as strings. -/
inductive Input where
  | http
  | stdin
  | text
  | endpoint (path : String)
  | batch (path : String)
deriving DecidableEq, Repr

/-- Mirror of opt.rs `enum Output`, feature-gated variants included. -/
inductive Output where
  | echoFull
  | echoCore
  | dynamic
  | mistralRs
  | llamaCpp
  | sgLang
  | trtllm
  | vllm
deriving DecidableEq, Repr

/-- Rust `matches!(&in_opt, Input::Endpoint(_))`. -/
def Input.isEndpoint : Input → Bool
  | .endpoint _ => true
  | _ => false

/-- Rust `matches!(&out_opt, Output::Dynamic)`. -/
def Output.isDynamic : Output → Bool
  | .dynamic => true
  | _ => false

/-- Mirror of lib.rs `DEFAULT_KV_CACHE_BLOCK_SIZE`. -/
def DEFAULT_KV_CACHE_BLOCK_SIZE : Nat := 16

/-- Mirror of lib.rs `INTERNAL_ENDPOINT`. -/
def INTERNAL_ENDPOINT : String := "dyn://dynamo.internal.worker"

/-- The fields of `ModelDeploymentCard` that `run` reads or writes
(model_card/model.rs is outside the slice; fields follow their uses in
local_model.rs and model_card/create.rs: names, `context_length`,
`kv_cache_block_size`, and tokenizer presence for `has_tokenizer()`). -/
structure ModelDeploymentCard where
  display_name : String
  service_name : String
  context_length : Nat
  kv_cache_block_size : Nat
  has_tokenizer : Bool
deriving DecidableEq, Repr

/-- Mirror of local_model.rs `struct LocalModel`. -/
structure LocalModel where
  full_path : String
  card : ModelDeploymentCard
deriving DecidableEq, Repr

/-- Mirror of `LocalModel::set_context_length`. -/
def LocalModel.set_context_length (m : LocalModel) (n : Nat) : LocalModel :=
  { m with card := { m.card with context_length := n } }

/-- Mirror of `LocalModel::set_kv_cache_block_size`. -/
def LocalModel.set_kv_cache_block_size (m : LocalModel) (n : Nat) : LocalModel :=
  { m with card := { m.card with kv_cache_block_size := n } }

/-- The flags of flags.rs that `run` reads (flags.rs is outside the slice;
fields follow their uses in lib.rs). -/
structure Flags where
  model_path_pos : Option String
  model_path_flag : Option String
  model_config : Option String
  model_name : Option String
  context_length : Option Nat
  kv_cache_block_size : Option Nat
  request_template : Option String
  base_gpu_id : Nat
  num_nodes : Nat
  node_rank : Nat
  leader_addr : Option String
deriving DecidableEq, Repr

/-- The external collaborators of `run`, abstracted as oracles: model
preparation (filesystem and HF download), template loading, filesystem
shape tests, sub-process start, engine construction and the final
input-mode handler. -/
structure RunEnv where
  prepare : String → Option String → Option String → Except String LocalModel
  defaultModel : LocalModel
  withNameOnly : String → LocalModel
  loadTemplate : String → Except String Unit
  isDir : String → Bool
  isFile : String → Bool
  startSubprocess : String → LocalModel → Protocols.EndpointId → Flags →
    Except String Unit
  makeEngine : String → LocalModel → Except String Unit
  runInput : Except String Unit

/-- The shape of lib.rs `enum EngineConfig`, with the model kept. -/
inductive EngineConfigKind where
  | dynamic
  | staticFull (model : LocalModel)
  | staticCore (model : LocalModel)
deriving DecidableEq, Repr

/-- What a successful `run` produced: the card cloned before the engine
match (lib.rs line 109) and the engine configuration. -/
structure RunOutcome where
  card : ModelDeploymentCard
  engine : EngineConfigKind
deriving DecidableEq, Repr

/-- Mirror of lib.rs `run`: the endpoint-in/dynamic-out guard, local model
selection, the context-length and kv-cache-block-size settings, template
loading, the engine match with its bail points, and the input dispatch.
External effects go through the `RunEnv` oracles. -/
def run (env : RunEnv) (in_opt : Input) (out_opt : Output) (flags : Flags) :
    Except String RunOutcome := do
  if in_opt.isEndpoint && out_opt.isDynamic then
    throw "Cannot use endpoint for both in and out"
  else
  let maybe_path :=
    match flags.model_path_pos with
    | some p => some p
    | none => flags.model_path_flag
  let local_model ←
    match out_opt with
    | .dynamic => pure env.defaultModel
    | _ =>
      match maybe_path with
      | some model_path => env.prepare model_path flags.model_config flags.model_name
      | none =>
        match flags.model_name with
        | some name => pure (env.withNameOnly name)
        | none => pure env.defaultModel
  let local_model :=
    match flags.context_length with
    | some context_length => local_model.set_context_length context_length
    | none => local_model
  let local_model :=
    local_model.set_kv_cache_block_size
      (flags.kv_cache_block_size.getD DEFAULT_KV_CACHE_BLOCK_SIZE)
  let _ ←
    match flags.request_template with
    | some path => env.loadTemplate path
    | none => pure ()
  let card := local_model.card
  let engine_config ←
    match out_opt with
    | .dynamic =>
      if flags.context_length.isSome then
        throw "--context-length flag should only be used on the worker node, not on the ingress"
      else if flags.kv_cache_block_size.isSome then
        throw "--kv-cache-block-size flag should only be used on the worker node, not on the ingress"
      else pure EngineConfigKind.dynamic
    | .echoFull => pure (EngineConfigKind.staticFull local_model)
    | .echoCore =>
      if !local_model.card.has_tokenizer then
        throw "out=echo_core need to find the tokenizer. Pass flag --model-path <path>"
      else pure (EngineConfigKind.staticCore local_model)
    | .mistralRs =>
      match env.makeEngine "mistralrs" local_model with
      | .ok _ => pure (EngineConfigKind.staticFull local_model)
      | .error e => throw e
    | .sgLang =>
      if !env.isDir local_model.full_path then
        throw "--model-path should point at a HuggingFace repo checkout"
      else do
        let endpoint ←
          match in_opt with
          | .endpoint path => Protocols.endpoint_from_str path
          | _ => Protocols.endpoint_from_str INTERNAL_ENDPOINT
        match env.startSubprocess "sglang" local_model endpoint flags with
        | .ok _ => pure EngineConfigKind.dynamic
        | .error err => throw ("Failed starting sglang sub-process: " ++ err)
    | .vllm =>
      if flags.base_gpu_id ≠ 0 then
        throw "vllm does not support base_gpu_id. Set environment variable CUDA_VISIBLE_DEVICES instead."
      else do
        let endpoint ←
          match in_opt with
          | .endpoint path => Protocols.endpoint_from_str path
          | _ => Protocols.endpoint_from_str INTERNAL_ENDPOINT
        match env.startSubprocess "vllm" local_model endpoint flags with
        | .ok _ => pure EngineConfigKind.dynamic
        | .error err => throw ("Failed starting vllm sub-process: " ++ err)
    | .trtllm =>
      if flags.base_gpu_id ≠ 0 then
        throw "TRTLLM does not support base_gpu_id. Set environment variable CUDA_VISIBLE_DEVICES instead."
      else do
        let endpoint ←
          match in_opt with
          | .endpoint path => Protocols.endpoint_from_str path
          | _ => Protocols.endpoint_from_str INTERNAL_ENDPOINT
        match env.startSubprocess "trtllm" local_model endpoint flags with
        | .ok _ => pure EngineConfigKind.dynamic
        | .error err => throw ("Failed starting trtllm sub-process: " ++ err)
    | .llamaCpp =>
      if !env.isFile local_model.full_path then
        throw "--model-path should refer to a GGUF file. llama_cpp does not support safetensors."
      else
        match env.makeEngine "llamacpp" local_model with
        | .ok _ => pure (EngineConfigKind.staticCore local_model)
        | .error e => throw e
  let _ ← env.runInput
  return { card := card, engine := engine_config }

end Launch

/-! ## Verification predicates and concrete instances used by witnesses -/

/-- The computation finished with an error. -/
def isErr {α : Type} (x : Except String α) : Prop := ∃ e, x = Except.error e

/-- A concrete block mixer for witnesses. -/
def hashC : Nat → List Nat → Nat := fun seed b => seed + b.sum + 1

/-- A concrete router for witnesses: block size 2, an indexer answering with
one worker whose overlap is the number of hashes, a scheduler answering the
isl count as worker id. -/
def routerC : KvR.KvRouter :=
  { block_size := 2
    indexer_find_matches := fun hs => Except.ok [((0 : Int), hs.length)]
    indexer_find_matches_for_request := fun ts => Except.ok [((0 : Int), ts.length)]
    scheduler_schedule := fun _ isl => Except.ok (Int.ofNat isl) }

/-- A second concrete router with the same block size but different
components, for the hash-determinism witness. -/
def routerC2 : KvR.KvRouter :=
  { block_size := 2
    indexer_find_matches := fun _ => Except.ok []
    indexer_find_matches_for_request := fun _ => Except.ok []
    scheduler_schedule := fun _ _ => Except.ok 7 }

/-- A concrete payload decoder for the event-pump witness: payload 0 is
malformed, every other payload decodes to itself. -/
def decodeC : Nat → Option Nat := fun n => if n = 0 then none else some n

/-- A concrete local model for launcher witnesses. -/
def modelC : Launch.LocalModel :=
  { full_path := ""
    card :=
      { display_name := "dynamo"
        service_name := "dynamo"
        context_length := 0
        kv_cache_block_size := 0
        has_tokenizer := true } }

/-- A concrete launcher environment where every oracle succeeds. -/
def envC : Launch.RunEnv :=
  { prepare := fun _ _ _ => Except.ok modelC
    defaultModel := modelC
    withNameOnly := fun _ => modelC
    loadTemplate := fun _ => Except.ok ()
    isDir := fun _ => true
    isFile := fun _ => true
    startSubprocess := fun _ _ _ _ => Except.ok ()
    makeEngine := fun _ _ => Except.ok ()
    runInput := Except.ok () }

/-- Concrete launcher flags: nothing given on the command line. -/
def flagsC : Launch.Flags :=
  { model_path_pos := none
    model_path_flag := none
    model_config := none
    model_name := none
    context_length := none
    kv_cache_block_size := none
    request_template := none
    base_gpu_id := 0
    num_nodes := 1
    node_rank := 0
    leader_addr := none }

/-- The model `run envC .text .echoFull flagsC` ends with: block size set
to the default 16. -/
def modelC16 : Launch.LocalModel :=
  { full_path := ""
    card :=
      { display_name := "dynamo"
        service_name := "dynamo"
        context_length := 0
        kv_cache_block_size := 16
        has_tokenizer := true } }

/-- The outcome of `run envC .text .echoFull flagsC`. -/
def outcomeC : Launch.RunOutcome :=
  { card := modelC16.card
    engine := Launch.EngineConfigKind.staticFull modelC16 }

/-! ## Helper lemmas -/

theorem string_append_assoc (a b c : String) : a ++ b ++ c = a ++ (b ++ c) := by
  apply String.ext
  simp [String.data_append, List.append_assoc]

namespace KvR

/-- A sequence shorter than one block has no complete blocks. -/
theorem completeBlocks_eq_nil (B : Nat) (l : List Nat) (h : l.length < B) :
    completeBlocks B l = [] := by
  rw [completeBlocks]
  simp [h]

/-- Unfolding of `completeBlocks` when a full block is available. -/
theorem completeBlocks_cons (B : Nat) (l : List Nat) (hB : B ≠ 0)
    (h : B ≤ l.length) :
    completeBlocks B l = l.take B :: completeBlocks B (l.drop B) := by
  rw [completeBlocks]
  rw [dif_neg (by omega : ¬ (B = 0 ∨ l.length < B))]

/-- Appending a partial tail of fewer than `B` tokens to a block-aligned
sequence leaves the complete blocks unchanged. -/
theorem completeBlocks_append (B : Nat) (tokens tail : List Nat)
    (hd : B ∣ tokens.length) (ht : tail.length < B) :
    completeBlocks B (tokens ++ tail) = completeBlocks B tokens := by
  have hB : 0 < B := by omega
  by_cases hlen : tokens.length < B
  · have h0 : tokens.length = 0 := Nat.eq_zero_of_dvd_of_lt hd hlen
    have hnil : tokens = [] := List.eq_nil_of_length_eq_zero h0
    subst hnil
    rw [List.nil_append, completeBlocks_eq_nil B tail ht,
      completeBlocks_eq_nil B [] (by simpa using hB)]
  · have hle : B ≤ tokens.length := Nat.le_of_not_lt hlen
    have htake : (tokens ++ tail).take B = tokens.take B :=
      List.take_append_of_le_length hle
    have hdrop : (tokens ++ tail).drop B = tokens.drop B ++ tail :=
      List.drop_append_of_le_length hle
    have hd2 : B ∣ (tokens.drop B).length := by
      rw [List.length_drop]
      exact Nat.dvd_sub' hd (dvd_refl B)
    rw [completeBlocks_cons B (tokens ++ tail) (by omega)
        (by simp [List.length_append]; omega),
      completeBlocks_cons B tokens (by omega) hle, htake, hdrop,
      completeBlocks_append B (tokens.drop B) tail hd2 ht]
termination_by tokens.length
decreasing_by simp [List.length_drop]; omega

theorem except_bind_ok {α β : Type} (a : α) (f : α → Except String β) :
    (Except.ok a >>= f) = f a := rfl

theorem except_bind_err {α β : Type} (e : String) (f : α → Except String β) :
    ((Except.error e : Except String α) >>= f) = Except.error e := rfl

theorem except_pure {α : Type} (a : α) :
    (pure a : Except String α) = Except.ok a := rfl

theorem except_throw {α : Type} (e : String) :
    (throw e : Except String α) = Except.error e := rfl

theorem except_bind_eq_ok {α β : Type} {e : Except String α}
    {f : α → Except String β} {b : β} (h : (e >>= f) = Except.ok b) :
    ∃ a, e = Except.ok a ∧ f a = Except.ok b := by
  cases e with
  | error s => rw [except_bind_err] at h; exact Except.noConfusion h
  | ok a => exact ⟨a, rfl, h⟩

/-- `find_best_match` as one bind chain: indexer on the complete-block
hashes, then the scheduler with the full token count. -/
theorem find_best_match_eq (H : Nat → List Nat → Nat) (r : KvRouter)
    (tokens : List Nat) :
    KvRouter.find_best_match H r tokens =
      r.indexer_find_matches (routerHashes H r tokens) >>= fun overlap_scores =>
        r.scheduler_schedule overlap_scores tokens.length := by
  unfold KvRouter.find_best_match routerHashes
  cases hx : r.indexer_find_matches (splitTokens H tokens r.block_size 1337).1 with
  | error e => simp [hx, except_bind_err]
  | ok ov =>
    simp only [hx, except_bind_ok, except_pure]
    cases hy : r.scheduler_schedule ov tokens.length <;>
      simp [hy, except_bind_ok, except_bind_err, except_pure]

/-- `schedule` as one bind chain. -/
theorem schedule_eq (r : KvRouter) (token_ids : List Nat) (lora_id : Nat) :
    KvRouter.schedule r token_ids lora_id =
      r.indexer_find_matches_for_request token_ids >>= fun overlap_scores =>
        r.scheduler_schedule overlap_scores token_ids.length := by
  unfold KvRouter.schedule
  cases hx : r.indexer_find_matches_for_request token_ids with
  | error e => simp [hx, except_bind_err]
  | ok ov =>
    simp only [hx, except_bind_ok, except_pure]
    cases hy : r.scheduler_schedule ov token_ids.length <;>
      simp [hy, except_bind_ok, except_bind_err, except_pure]

/-- The event pump forwards exactly the payloads that deserialize, in
order. -/
theorem pumpEvents_eq_filterMap {P E : Type} (decode : P → Option E)
    (payloads : List P) :
    pumpEvents decode payloads = payloads.filterMap decode := by
  induction payloads with
  | nil => rfl
  | cons p rest ih =>
    cases hx : decode p <;> simp [pumpEvents, hx, ih, List.filterMap_cons]

end KvR

/-! ## Claims -/

open KvR Launch

/-- Claim C1: for every token sequence, `KvRouter::find_best_match` computes
block hashes only from the complete blocks — the partial tail of fewer
than `block_size` tokens never changes the hash list — queries the indexer
with exactly those hashes, calls the scheduler with `isl_tokens` equal to the
full token count (partial tail included), and returns the scheduler's
worker id. Stated for an arbitrary block-aligned sequence `tokens` extended
by an arbitrary partial tail `tail`. -/
theorem claim_C1_find_best_match_complete_blocks (H : Nat → List Nat → Nat)
    (r : KvRouter) (tokens tail : List Nat)
    (hd : r.block_size ∣ tokens.length) (ht : tail.length < r.block_size) :
    routerHashes H r (tokens ++ tail) = routerHashes H r tokens ∧
    KvRouter.find_best_match H r (tokens ++ tail) =
      r.indexer_find_matches (routerHashes H r tokens) >>= fun overlap_scores =>
        r.scheduler_schedule overlap_scores (tokens.length + tail.length) := by
  have h1 : routerHashes H r (tokens ++ tail) = routerHashes H r tokens := by
    unfold routerHashes splitTokens
    rw [completeBlocks_append r.block_size tokens tail hd ht]
  refine ⟨h1, ?_⟩
  rw [find_best_match_eq, h1, List.length_append]

/-- Witness for C1: block size 2, aligned part `[1, 2, 3, 4]`, partial tail
`[5]`. -/
theorem claim_C1_witness :
    routerHashes hashC routerC ([1, 2, 3, 4] ++ [5]) =
      routerHashes hashC routerC [1, 2, 3, 4] ∧
    KvRouter.find_best_match hashC routerC ([1, 2, 3, 4] ++ [5]) =
      routerC.indexer_find_matches (routerHashes hashC routerC [1, 2, 3, 4]) >>=
        fun overlap_scores =>
          routerC.scheduler_schedule overlap_scores
            (([1, 2, 3, 4] : List Nat).length + ([5] : List Nat).length) :=
  claim_C1_find_best_match_complete_blocks hashC routerC [1, 2, 3, 4] [5]
    (by decide) (by decide)

/-- Claim C2: a payload on the `kv_events` subscription that fails to
deserialize is skipped, never forwarded to the indexer, and every
well-formed event before and after it is still forwarded, in order: the
forwarded stream of `pre ++ bad :: post` is the forwarded stream of `pre`
followed by the forwarded stream of `post`, and in general the forwarded
stream is exactly the deserializable payloads. -/
theorem claim_C2_bad_event_skipped (P E : Type) (decode : P → Option E)
    (pre post : List P) (bad : P) (h : decode bad = none) :
    pumpEvents decode (pre ++ bad :: post) =
      pumpEvents decode pre ++ pumpEvents decode post ∧
    pumpEvents decode (pre ++ bad :: post) =
      (pre ++ bad :: post).filterMap decode := by
  constructor
  · simp [pumpEvents_eq_filterMap, List.filterMap_append, List.filterMap_cons, h]
  · exact pumpEvents_eq_filterMap decode _

/-- Witness for C2: payload 0 is malformed among `[1, 0, 2]`. -/
theorem claim_C2_witness :
    pumpEvents decodeC ([1] ++ 0 :: [2]) =
      pumpEvents decodeC [1] ++ pumpEvents decodeC [2] ∧
    pumpEvents decodeC ([1] ++ 0 :: [2]) =
      ([1] ++ 0 :: [2]).filterMap decodeC :=
  claim_C2_bad_event_skipped Nat Nat decodeC [1] [2] 0 (by decide)

/-- Claim C3: `lora_id` has no effect on routing — `KvRouter::schedule` gives
the same result for every pair of `lora_id` values on the same tokens and
router state. -/
theorem claim_C3_lora_id_ignored (r : KvRouter) (token_ids : List Nat)
    (u v : Nat) :
    KvRouter.schedule r token_ids u = KvRouter.schedule r token_ids v := rfl

/-- Claim C4: the hash seed is the fixed constant 1337 — the hash list
`find_best_match` queries is the chain seeded with 1337 over the complete
blocks, and so depends only on the token sequence and the block size: two
routers with equal block size produce identical block-hash lists. -/
theorem claim_C4_seed_is_1337 (H : Nat → List Nat → Nat) (r1 r2 : KvRouter)
    (tokens : List Nat) (h : r1.block_size = r2.block_size) :
    routerHashes H r1 tokens =
      hashChain H 1337 (completeBlocks r1.block_size tokens) ∧
    routerHashes H r1 tokens = routerHashes H r2 tokens := by
  constructor
  · rfl
  · unfold routerHashes splitTokens
    rw [h]

/-- Witness for C4: two distinct routers sharing block size 2. -/
theorem claim_C4_witness :
    routerHashes hashC routerC [1, 2, 3] =
      hashChain hashC 1337 (completeBlocks routerC.block_size [1, 2, 3]) ∧
    routerHashes hashC routerC [1, 2, 3] = routerHashes hashC routerC2 [1, 2, 3] :=
  claim_C4_seed_is_1337 hashC routerC routerC2 [1, 2, 3] (by decide)

/-- Claim C5: no error is swallowed on the request path — `schedule` and
`find_best_match` are exactly the indexer query followed by the scheduler
call, an error state arises exactly when the indexer or the scheduler
errs, and a returned worker id is exactly the scheduler's choice. -/
theorem claim_C5_error_propagation (H : Nat → List Nat → Nat) (r : KvRouter)
    (tokens : List Nat) (lora_id : Nat) :
    (KvRouter.schedule r tokens lora_id =
      r.indexer_find_matches_for_request tokens >>= fun overlap_scores =>
        r.scheduler_schedule overlap_scores tokens.length) ∧
    (KvRouter.find_best_match H r tokens =
      r.indexer_find_matches (routerHashes H r tokens) >>= fun overlap_scores =>
        r.scheduler_schedule overlap_scores tokens.length) ∧
    (isErr (KvRouter.schedule r tokens lora_id) ↔
      isErr (r.indexer_find_matches_for_request tokens) ∨
      ∃ ov, r.indexer_find_matches_for_request tokens = Except.ok ov ∧
        isErr (r.scheduler_schedule ov tokens.length)) ∧
    (∀ w : Int, KvRouter.schedule r tokens lora_id = Except.ok w ↔
      ∃ ov, r.indexer_find_matches_for_request tokens = Except.ok ov ∧
        r.scheduler_schedule ov tokens.length = Except.ok w) ∧
    (isErr (KvRouter.find_best_match H r tokens) ↔
      isErr (r.indexer_find_matches (routerHashes H r tokens)) ∨
      ∃ ov, r.indexer_find_matches (routerHashes H r tokens) = Except.ok ov ∧
        isErr (r.scheduler_schedule ov tokens.length)) ∧
    (∀ w : Int, KvRouter.find_best_match H r tokens = Except.ok w ↔
      ∃ ov, r.indexer_find_matches (routerHashes H r tokens) = Except.ok ov ∧
        r.scheduler_schedule ov tokens.length = Except.ok w) := by
  refine ⟨schedule_eq r tokens lora_id, find_best_match_eq H r tokens, ?_, ?_, ?_, ?_⟩
  · rw [schedule_eq]
    cases hx : r.indexer_find_matches_for_request tokens with
    | error e => simp [except_bind_err, isErr, hx]
    | ok ov => simp [except_bind_ok, isErr, hx]
  · intro w
    rw [schedule_eq]
    cases hx : r.indexer_find_matches_for_request tokens with
    | error e => simp [except_bind_err, hx]
    | ok ov => simp [except_bind_ok, hx]
  · rw [find_best_match_eq]
    cases hx : r.indexer_find_matches (routerHashes H r tokens) with
    | error e => simp [except_bind_err, isErr, hx]
    | ok ov => simp [except_bind_ok, isErr, hx]
  · intro w
    rw [find_best_match_eq]
    cases hx : r.indexer_find_matches (routerHashes H r tokens) with
    | error e => simp [except_bind_err, hx]
    | ok ov => simp [except_bind_ok, hx]

/-- Claim C6: a successful `generate` answers with a stream of exactly one
element, and that element carries the worker id `find_best_match` selected
for the request's tokens. -/
theorem claim_C6_generate_single_element (H : Nat → List Nat → Nat)
    (r : KvRouter) (request : RouterRequest) (resp : List RouterResponse)
    (h : KvRouter.generate H r request = Except.ok resp) :
    resp.length = 1 ∧
    ∃ w, KvRouter.find_best_match H r request.tokens = Except.ok w ∧
      resp = [{ worker_id := w }] := by
  unfold KvRouter.generate at h
  cases hx : KvRouter.find_best_match H r request.tokens with
  | error e =>
    rw [hx] at h
    simp [except_bind_err] at h
  | ok w =>
    rw [hx] at h
    simp only [except_bind_ok, except_pure] at h
    cases h
    exact ⟨rfl, w, rfl, rfl⟩

/-- Witness for C6: `routerC` on tokens `[1, 2, 3]` answers the single
response with worker id 3. -/
theorem claim_C6_witness :
    ([{ worker_id := 3 }] : List RouterResponse).length = 1 ∧
    ∃ w, KvRouter.find_best_match hashC routerC
        (RouterRequest.mk [1, 2, 3]).tokens = Except.ok w ∧
      ([{ worker_id := 3 }] : List RouterResponse) = [{ worker_id := w }] :=
  claim_C6_generate_single_element hashC routerC (RouterRequest.mk [1, 2, 3])
    [{ worker_id := 3 }] (by rfl)

/-- Claim C7: `Component::etcd_root` is exactly `instances/` followed by the
namespace name, `/`, and the component name, and a dynamic endpoint's full
instance key (`Endpoint::etcd_path`) extends that root with the endpoint
name and a lower-case-hex lease id. -/
theorem claim_C7_etcd_instance_paths (ns cp ep : String) (lease : Int) :
    Runtime.Component.etcd_root { nspace := ns, name := cp } =
      "instances/" ++ ns ++ "/" ++ cp ∧
    Runtime.CEndpoint.etcd_path
        { component := { nspace := ns, name := cp }, name := ep,
          is_static := false } lease =
      ("instances/" ++ ns ++ "/" ++ cp ++ "/") ++ ep ++ ":" ++
        Runtime.i64LowerHex lease :=
  ⟨rfl, rfl⟩

/-- Claim C8: `run` with an endpoint input and dynamic output fails at once
with the fixed message, for every flags value and every environment — in
particular before any external oracle (model preparation, engine start) is
consulted. -/
theorem claim_C8_endpoint_dynamic_rejected (env : RunEnv) (flags : Flags)
    (path : String) :
    Launch.run env (Input.endpoint path) Output.dynamic flags =
      Except.error "Cannot use endpoint for both in and out" := rfl

/-- Claim C9: whenever the output engine is not `Dynamic` and `run`
produces an outcome, the model card's `kv_cache_block_size` is the
`--kv-cache-block-size` flag when given and the default
`DEFAULT_KV_CACHE_BLOCK_SIZE = 16` otherwise, for every environment — no
engine-provided default exists. -/
theorem claim_C9_kv_cache_block_size_always_set (env : RunEnv)
    (in_opt : Input) (out_opt : Output) (flags : Flags)
    (outcome : RunOutcome) (hout : out_opt ≠ Output.dynamic)
    (h : Launch.run env in_opt out_opt flags = Except.ok outcome) :
    DEFAULT_KV_CACHE_BLOCK_SIZE = 16 ∧
    outcome.card.kv_cache_block_size =
      flags.kv_cache_block_size.getD DEFAULT_KV_CACHE_BLOCK_SIZE := by
  refine ⟨rfl, ?_⟩
  unfold Launch.run at h
  cases out_opt with
  | dynamic => exact absurd rfl hout
  | _ =>
    simp only [Output.isDynamic, Bool.and_false, Bool.false_eq_true,
      if_false] at h
    repeat' (first
      | (obtain ⟨_, _, h⟩ := KvR.except_bind_eq_ok h)
      | (split at h)
      | (simp only [KvR.except_bind_ok, KvR.except_pure, KvR.except_throw] at h))
    all_goals (first
      | (exact Except.noConfusion h)
      | (injection h with h2; subst h2;
         simp [LocalModel.set_kv_cache_block_size]))

/-- Witness for C9: the echo-full engine with no flags given ends with
block size 16 on the card. -/
theorem claim_C9_witness :
    DEFAULT_KV_CACHE_BLOCK_SIZE = 16 ∧
    outcomeC.card.kv_cache_block_size =
      flagsC.kv_cache_block_size.getD DEFAULT_KV_CACHE_BLOCK_SIZE :=
  claim_C9_kv_cache_block_size_always_set envC Input.text Output.echoFull
    flagsC outcomeC (by decide) (by rfl)

/-- Counterexample to claim C10 as stated: on the single-part input
`"component"` the parts do not fill namespace, component and name in
order — in-order filling would set the namespace, but `Endpoint::from`
sets the component. -/
theorem claim_C10_counterexample :
    Protocols.endpoint_from "component" ≠ Protocols.fillInOrderSpec "component" := by
  decide

/-- Claim C10 as amended: parsing is total; after stripping an optional
`dyn://` scheme and surrounding space, slash and dot characters, the parts
split on dot or slash fill the fields as follows — a single part fills the
component; two parts fill namespace and component; three or more fill
namespace and component and join the third and later parts with an
underscore into the name; missing fields default to NS, C and E. -/
theorem claim_C10_endpoint_parse_total (s : String) :
    Protocols.endpoint_from_str s =
      Except.ok
        (let elements := Protocols.elementsOf (Protocols.stripScheme s).data
         { nspace :=
             if elements.length ≥ 2 then elements.getD 0 Protocols.DEFAULT_NAMESPACE
             else Protocols.DEFAULT_NAMESPACE
           component :=
             if elements.length = 1 then elements.getD 0 Protocols.DEFAULT_COMPONENT
             else elements.getD 1 Protocols.DEFAULT_COMPONENT
           name :=
             if elements.length ≤ 2 then Protocols.DEFAULT_ENDPOINT
             else String.intercalate "_" (elements.drop 2) }) := by
  unfold Protocols.endpoint_from_str Protocols.endpoint_from
  apply congrArg
  set elements := Protocols.elementsOf (Protocols.stripScheme s).data with he
  clear_value elements
  rcases elements with _ | ⟨a, _ | ⟨b, _ | ⟨c, _ | ⟨d, rest⟩⟩⟩⟩
  · rfl
  · rfl
  · rfl
  · rfl
  · rfl

end Dynamo
